import Mathlib

/-!
Verification of the facial-monitoring core of `enhanced_head_monitor.py`
(repository m-karthika14/mindmirrorai).

The per-frame pipeline is embedded shallowly: each Python component
(`BlinkDetector.process_landmarks`, `FacialMonitoringAgent.process_calibration`,
`update_head_direction`, `process_eye_metrics`, the attention scorer of
`log_data`) becomes a pure Lean function over an explicit state record.
Python floats are modelled as rationals; `time.time()` becomes an explicit
time parameter; `numpy.sqrt` / `math.sqrt` become `ratSqrt`, a computable
non-negative square-root approximation (the claims under study depend only on
the sign behaviour of the square root, never on its exact value).
Fallible code (exception-guarded landmark access) takes an `Option` input,
`none` standing for an input whose landmark access raises.
-/

namespace MindMirror

/-- Computable model of the non-negative square root used by
`BlinkDetector.distance` (numpy.sqrt) and `process_eye_metrics` (math.sqrt).
It returns `0` on non-positive input and a non-negative rational otherwise;
these are the only properties of the square root the code paths under
verification depend on. -/
def ratSqrt (q : ℚ) : ℚ :=
  if q ≤ 0 then 0 else (Nat.sqrt (q.num.toNat * q.den) : ℚ) / (q.den : ℚ)

theorem ratSqrt_nonneg (q : ℚ) : 0 ≤ ratSqrt q := by
  unfold ratSqrt
  split_ifs with h
  · exact le_refl 0
  · positivity

theorem ratSqrt_zero : ratSqrt 0 = 0 := rfl

/-- Model of `BlinkDetector.distance`: Euclidean distance between two
normalized landmark points. -/
def distance (p1 p2 : ℚ × ℚ) : ℚ :=
  ratSqrt ((p1.1 - p2.1) ^ 2 + (p1.2 - p2.2) ^ 2)

theorem distance_nonneg (p1 p2 : ℚ × ℚ) : 0 ≤ distance p1 p2 :=
  ratSqrt_nonneg _

/-- The eight eye landmark points `BlinkDetector.process_landmarks` reads from
a MediaPipe landmark frame (indices 159/145/33/133 and 386/374/362/263). -/
structure Landmarks where
  left_eye_top_pt : ℚ × ℚ
  left_eye_bottom_pt : ℚ × ℚ
  left_eye_left_pt : ℚ × ℚ
  left_eye_right_pt : ℚ × ℚ
  right_eye_top_pt : ℚ × ℚ
  right_eye_bottom_pt : ℚ × ℚ
  right_eye_left_pt : ℚ × ℚ
  right_eye_right_pt : ℚ × ℚ
deriving DecidableEq, Repr

/-- Eye aspect ratio threshold, `self.ear_threshold = 0.2`. -/
def earThreshold : ℚ := 0.2

/-- Frames both eyes must stay closed before a blink starts,
`self.consecutive_frames = 2`. -/
def consecutiveFrames : ℕ := 2

/-- Mutable state of `BlinkDetector` (fields set in `BlinkDetector.__init__`). -/
structure BlinkState where
  blink_count : ℕ
  blink_in_progress : Bool
  blink_start_time : ℚ
  blink_duration : ℚ
  frames_below_threshold : ℕ
  blink_timestamps : List ℚ
  blink_durations : List ℚ
  micro_sleep_count : ℕ
  start_time : ℚ
deriving DecidableEq, Repr

/-- Initial `BlinkDetector` state; `t0` is the `time.time()` captured in
`__init__` as `self.start_time`. -/
def initBlinkState (t0 : ℚ) : BlinkState :=
  { blink_count := 0
    blink_in_progress := false
    blink_start_time := 0
    blink_duration := 0
    frames_below_threshold := 0
    blink_timestamps := []
    blink_durations := []
    micro_sleep_count := 0
    start_time := t0 }

/-- The dictionary `BlinkDetector.process_landmarks` returns.  The success
path carries the keys `micro_sleeps` and `durations`; the exception path
omits them, hence the `Option` fields. -/
structure BlinkResult where
  blinking : Bool
  left_closed : Bool
  right_closed : Bool
  count : ℕ
  rate_per_minute : ℚ
  avg_duration : ℚ
  last_duration : ℚ
  micro_sleeps : Option ℕ
  durations : Option (List ℚ)
  left_closed_ratio : ℚ
  right_closed_ratio : ℚ
deriving DecidableEq, Repr

/-- Helper mirroring `left_eye_width = self.distance(left_eye_left_pt, left_eye_right_pt)`. -/
def leftEyeWidth (l : Landmarks) : ℚ := distance l.left_eye_left_pt l.left_eye_right_pt

/-- Helper mirroring `left_eye_height = self.distance(left_eye_top_pt, left_eye_bottom_pt)`. -/
def leftEyeHeight (l : Landmarks) : ℚ := distance l.left_eye_top_pt l.left_eye_bottom_pt

/-- Helper mirroring `right_eye_width = self.distance(right_eye_left_pt, right_eye_right_pt)`. -/
def rightEyeWidth (l : Landmarks) : ℚ := distance l.right_eye_left_pt l.right_eye_right_pt

/-- Helper mirroring `right_eye_height = self.distance(right_eye_top_pt, right_eye_bottom_pt)`. -/
def rightEyeHeight (l : Landmarks) : ℚ := distance l.right_eye_top_pt l.right_eye_bottom_pt

/-- Model of the success path of `BlinkDetector.process_landmarks` (the body
of the `try` block): computes both eye aspect ratios with the width guard,
runs the debounced blink state machine, and returns the updated detector
state together with the result dictionary.  `t` is `time.time()`. -/
def processLandmarks (s : BlinkState) (lmk : Landmarks) (t : ℚ) :
    BlinkState × BlinkResult :=
  let left_eye_width := leftEyeWidth lmk
  let left_eye_height := leftEyeHeight lmk
  let right_eye_width := rightEyeWidth lmk
  let right_eye_height := rightEyeHeight lmk
  let left_ear := if left_eye_width > 0 then left_eye_height / left_eye_width else 0
  let right_ear := if right_eye_width > 0 then right_eye_height / right_eye_width else 0
  let left_closed : Bool := decide (left_ear < earThreshold)
  let right_closed : Bool := decide (right_ear < earThreshold)
  let s1 :=
    if left_closed && right_closed then
      let fbt := s.frames_below_threshold + 1
      if !s.blink_in_progress && decide (fbt ≥ consecutiveFrames) then
        { s with frames_below_threshold := fbt
                 blink_in_progress := true
                 blink_start_time := t }
      else
        { s with frames_below_threshold := fbt }
    else
      let s2 :=
        if s.blink_in_progress then
          let dur := (t - s.blink_start_time) * 1000
          let durs0 := s.blink_durations ++ [dur]
          let durs := if durs0.length > 20 then durs0.drop (durs0.length - 20) else durs0
          let msc := if dur > 400 then s.micro_sleep_count + 1 else s.micro_sleep_count
          let stamps := (s.blink_timestamps ++ [t]).filter (fun u => decide (t - u ≤ 60))
          { s with blink_in_progress := false
                   blink_count := s.blink_count + 1
                   blink_duration := dur
                   blink_timestamps := stamps
                   blink_durations := durs
                   micro_sleep_count := msc }
        else s
      { s2 with frames_below_threshold := 0 }
  let session_duration := (t - s.start_time) / 60
  let blink_rate :=
    if session_duration > 0 then
      (s1.blink_timestamps.length : ℚ) / min session_duration 1
    else 0
  let avg_blink_duration :=
    if s1.blink_durations.isEmpty then 0
    else s1.blink_durations.sum / (s1.blink_durations.length : ℚ)
  (s1,
    { blinking := s1.blink_in_progress
      left_closed := left_closed
      right_closed := right_closed
      count := s1.blink_count
      rate_per_minute := blink_rate
      avg_duration := avg_blink_duration
      last_duration := s1.blink_duration
      micro_sleeps := some s1.micro_sleep_count
      durations := some s1.blink_durations
      left_closed_ratio := left_ear
      right_closed_ratio := right_ear })

/-- Model of the whole `BlinkDetector.process_landmarks` including the
`except` handler: a `none` input stands for a landmark frame whose landmark
access raises.  In that case the handler returns the neutral dictionary
(`blinking=False`, zero ratios and rates, the running `self.blink_count`)
and the detector state is left untouched. -/
def processLandmarksChecked (s : BlinkState) (lmk? : Option Landmarks) (t : ℚ) :
    BlinkState × BlinkResult :=
  match lmk? with
  | some lmk => processLandmarks s lmk t
  | none =>
      (s,
        { blinking := false
          left_closed := false
          right_closed := false
          count := s.blink_count
          rate_per_minute := 0
          avg_duration := 0
          last_duration := 0
          micro_sleeps := none
          durations := none
          left_closed_ratio := 0
          right_closed_ratio := 0 })

/-- Folding `process_landmarks` over a frame sequence (each frame is a
landmark set and its wall-clock time). -/
def runBlink (s : BlinkState) (frames : List (Landmarks × ℚ)) : BlinkState :=
  frames.foldl (fun st f => (processLandmarks st f.1 f.2).1) s

theorem processLandmarks_counts_mono (s : BlinkState) (lmk : Landmarks) (t : ℚ) :
    s.blink_count ≤ (processLandmarks s lmk t).1.blink_count ∧
      s.micro_sleep_count ≤ (processLandmarks s lmk t).1.micro_sleep_count := by
  simp only [processLandmarks]
  split_ifs <;> simp

/-- C4: across any sequence of frames processed within one session, the blink
detector's `blink_count` and `micro_sleep_count` are monotonically
non-decreasing: no call to `process_landmarks` ever decreases either counter. -/
theorem blink_counters_monotone (s : BlinkState) (frames : List (Landmarks × ℚ)) :
    s.blink_count ≤ (runBlink s frames).blink_count ∧
      s.micro_sleep_count ≤ (runBlink s frames).micro_sleep_count := by
  induction frames generalizing s with
  | nil => exact ⟨le_refl _, le_refl _⟩
  | cons f fs ih =>
      have h1 := processLandmarks_counts_mono s f.1 f.2
      have h2 := ih (processLandmarks s f.1 f.2).1
      exact ⟨le_trans h1.1 h2.1, le_trans h1.2 h2.2⟩

/-- C2: for every landmark frame, each eye's aspect ratio returned by
`process_landmarks` is non-negative, and it is exactly `0` whenever that
eye's horizontal width is non-positive (the division is guarded, so no
division error can arise; totality of the embedding reflects the absence of
NaN/exceptions). -/
theorem ear_nonneg_and_guarded (s : BlinkState) (lmk : Landmarks) (t : ℚ) :
    0 ≤ (processLandmarks s lmk t).2.left_closed_ratio ∧
    0 ≤ (processLandmarks s lmk t).2.right_closed_ratio ∧
    (leftEyeWidth lmk ≤ 0 → (processLandmarks s lmk t).2.left_closed_ratio = 0) ∧
    (rightEyeWidth lmk ≤ 0 → (processLandmarks s lmk t).2.right_closed_ratio = 0) := by
  have hlw := distance_nonneg lmk.left_eye_left_pt lmk.left_eye_right_pt
  have hlh := distance_nonneg lmk.left_eye_top_pt lmk.left_eye_bottom_pt
  have hrw := distance_nonneg lmk.right_eye_left_pt lmk.right_eye_right_pt
  have hrh := distance_nonneg lmk.right_eye_top_pt lmk.right_eye_bottom_pt
  simp only [processLandmarks, leftEyeWidth, leftEyeHeight, rightEyeWidth, rightEyeHeight]
  refine ⟨?_, ?_, ?_, ?_⟩
  · split_ifs with h
    · exact div_nonneg hlh (le_of_lt h)
    · exact le_refl 0
  · split_ifs with h
    · exact div_nonneg hrh (le_of_lt h)
    · exact le_refl 0
  · intro hle
    rw [if_neg (by simpa [leftEyeWidth] using not_lt_of_le hle)]
  · intro hle
    rw [if_neg (by simpa [rightEyeWidth] using not_lt_of_le hle)]

/-- Degenerate landmark frame in which every eye point coincides, so both eye
widths are zero. -/
def degenerateLandmarks : Landmarks :=
  { left_eye_top_pt := (0, 0)
    left_eye_bottom_pt := (0, 0)
    left_eye_left_pt := (0, 0)
    left_eye_right_pt := (0, 0)
    right_eye_top_pt := (0, 0)
    right_eye_bottom_pt := (0, 0)
    right_eye_left_pt := (0, 0)
    right_eye_right_pt := (0, 0) }

/-- Witness for C2: on a zero-width landmark frame both aspect ratios are
exactly 0 and non-negative. -/
theorem ear_nonneg_and_guarded_witness :
    (processLandmarks (initBlinkState 0) degenerateLandmarks 1).2.left_closed_ratio = 0 ∧
      (processLandmarks (initBlinkState 0) degenerateLandmarks 1).2.right_closed_ratio = 0 ∧
      0 ≤ (processLandmarks (initBlinkState 0) degenerateLandmarks 1).2.left_closed_ratio := by
  have h := ear_nonneg_and_guarded (initBlinkState 0) degenerateLandmarks 1
  have hw : leftEyeWidth degenerateLandmarks ≤ 0 := by
    norm_num [leftEyeWidth, distance, degenerateLandmarks, ratSqrt]
  have hw2 : rightEyeWidth degenerateLandmarks ≤ 0 := by
    norm_num [rightEyeWidth, distance, degenerateLandmarks, ratSqrt]
  exact ⟨h.2.2.1 hw, h.2.2.2 hw2, h.1⟩

/-- C10: when the blink detector's internal computation fails (a `none`
input models any exception while reading landmarks), `process_landmarks`
returns the neutral dictionary — `blinking=False`, zero ratios and rates,
the running `blink_count` preserved — and leaves the detector state, in
particular the blink counter, untouched (the embedding is total: no
exception propagates). -/
theorem processLandmarks_error_path_neutral (s : BlinkState) (t : ℚ) :
    (processLandmarksChecked s none t).1 = s ∧
      (processLandmarksChecked s none t).2.blinking = false ∧
      (processLandmarksChecked s none t).2.left_closed_ratio = 0 ∧
      (processLandmarksChecked s none t).2.right_closed_ratio = 0 ∧
      (processLandmarksChecked s none t).2.rate_per_minute = 0 ∧
      (processLandmarksChecked s none t).2.avg_duration = 0 ∧
      (processLandmarksChecked s none t).2.last_duration = 0 ∧
      (processLandmarksChecked s none t).2.count = s.blink_count ∧
      (processLandmarksChecked s none t).1.blink_count = s.blink_count := by
  refine ⟨rfl, rfl, rfl, rfl, rfl, rfl, rfl, rfl, rfl⟩

/-- Blink-rate normalcy component of the attention score, from
`FacialMonitoringAgent.log_data` (the same `if`/`elif` appears in
`calculate_attention_score`):
`blink_normalcy = 20`, set to `10` under `if blink_rate < 10 or blink_rate > 30`,
set to `5` under the subsequent `elif blink_rate < 5 or blink_rate > 40`. -/
def blinkNormalcy (blink_rate : ℚ) : ℚ :=
  if blink_rate < 10 ∨ blink_rate > 30 then 10
  else if blink_rate < 5 ∨ blink_rate > 40 then 5
  else 20

/-- Head-stillness component of the attention score, from
`FacialMonitoringAgent.log_data`: 30 when the current direction is CENTER,
else 15; reduced by 10 and floored at 0 when a head-movement or
micro-movement event fired this frame. -/
def headStillness (direction : String) (head_movement micro_movement : Bool) : ℚ :=
  let base : ℚ := if direction = "CENTER" then 30 else 15
  if head_movement || micro_movement then max 0 (base - 10) else base

/-- Attention score as computed in `FacialMonitoringAgent.log_data`:
`min(100, screen_attention_ratio * 50 + head_stillness + blink_normalcy)`. -/
def attentionScore (screen_attention_ratio : ℚ) (direction : String)
    (head_movement micro_movement : Bool) (blink_rate : ℚ) : ℚ :=
  min 100 (screen_attention_ratio * 50 +
    headStillness direction head_movement micro_movement + blinkNormalcy blink_rate)

/-- C1 divergence: the `elif` guarding the value 5 is dead code.  Every blink
rate below 5 is also below 10, and every rate above 40 is also above 30, so
the first branch always fires first and `blink_normalcy` is 10 for all
extreme rates — it can never equal 5.  At the failing input
`blink_rate = 50` (with full screen attention, CENTER head, no movement
events) the code yields `blink_normalcy = 10` and attention score 90, where
the claim predicts 5 and 85. -/
theorem blinkNormalcy_five_unreachable :
    (∀ r : ℚ, blinkNormalcy r = 10 ∨ blinkNormalcy r = 20) ∧
      blinkNormalcy 50 = 10 ∧ blinkNormalcy 2 = 10 ∧
      attentionScore 1 "CENTER" false false 50 = 90 := by
  refine ⟨?_, ?_, ?_, ?_⟩
  · intro r
    unfold blinkNormalcy
    split_ifs with h1 h2
    · exact Or.inl rfl
    · exact absurd h2 (by push_neg at h1 ⊢; constructor <;> linarith [h1.1, h1.2])
    · exact Or.inr rfl
  · norm_num [blinkNormalcy]
  · norm_num [blinkNormalcy]
  · norm_num [attentionScore, headStillness, blinkNormalcy]

/-- Calibration-related state of `FacialMonitoringAgent` (fields set in
`__init__`; `calibration_countdown = 3` seconds). -/
structure CalibState where
  calibrated : Bool
  calibration_samples : List (ℚ × ℚ × ℚ)
  calibration_yaw_offset : ℚ
  calibration_pitch_offset : ℚ
  calibration_roll_offset : ℚ
  calibration_countdown : ℚ
  calibration_start_time : ℚ
deriving DecidableEq, Repr

/-- Model of `FacialMonitoringAgent.start_calibration`: clears the sample
buffer, drops the calibrated flag and records the start time. -/
def startCalibration (s : CalibState) (t : ℚ) : CalibState :=
  { s with calibration_samples := []
           calibrated := false
           calibration_start_time := t }

/-- Model of `FacialMonitoringAgent.process_calibration`: while elapsed time
is below the countdown, append the raw pose sample and report `false`; once
elapsed reaches the countdown, average the buffered samples into the offsets
and report `true`, or report `false` leaving everything unchanged when the
buffer is empty. -/
def processCalibration (s : CalibState) (yaw pitch roll t : ℚ) : CalibState × Bool :=
  let elapsed := t - s.calibration_start_time
  if elapsed < s.calibration_countdown then
    ({ s with calibration_samples := s.calibration_samples ++ [(yaw, pitch, roll)] }, false)
  else if 0 < s.calibration_samples.length then
    let n : ℚ := (s.calibration_samples.length : ℚ)
    let yaw_sum := (s.calibration_samples.map (fun p => p.1)).sum
    let pitch_sum := (s.calibration_samples.map (fun p => p.2.1)).sum
    let roll_sum := (s.calibration_samples.map (fun p => p.2.2)).sum
    ({ s with calibration_yaw_offset := yaw_sum / n
              calibration_pitch_offset := pitch_sum / n
              calibration_roll_offset := roll_sum / n
              calibrated := true }, true)
  else (s, false)

/-- C6: once elapsed time reaches the countdown, `process_calibration` with a
non-empty sample buffer sets each offset to the per-axis arithmetic mean of
the buffered samples, marks the session calibrated and returns `true`; with
an empty buffer it returns `false` and leaves the state unchanged (so the
session remains uncalibrated and calibration may be retried). -/
theorem processCalibration_completion (s : CalibState) (yaw pitch roll t : ℚ)
    (h : s.calibration_countdown ≤ t - s.calibration_start_time) :
    (s.calibration_samples ≠ [] →
      (processCalibration s yaw pitch roll t).2 = true ∧
      (processCalibration s yaw pitch roll t).1.calibrated = true ∧
      (processCalibration s yaw pitch roll t).1.calibration_yaw_offset =
        (s.calibration_samples.map (fun p => p.1)).sum / (s.calibration_samples.length : ℚ) ∧
      (processCalibration s yaw pitch roll t).1.calibration_pitch_offset =
        (s.calibration_samples.map (fun p => p.2.1)).sum / (s.calibration_samples.length : ℚ) ∧
      (processCalibration s yaw pitch roll t).1.calibration_roll_offset =
        (s.calibration_samples.map (fun p => p.2.2)).sum / (s.calibration_samples.length : ℚ)) ∧
    (s.calibration_samples = [] →
      (processCalibration s yaw pitch roll t).2 = false ∧
      (processCalibration s yaw pitch roll t).1 = s) := by
  have hnot : ¬ (t - s.calibration_start_time < s.calibration_countdown) := not_lt_of_le h
  constructor
  · intro hne
    have hlen : 0 < s.calibration_samples.length := List.length_pos.mpr hne
    simp only [processCalibration, if_neg hnot, if_pos hlen]
    refine ⟨?_, ?_, ?_, ?_, ?_⟩ <;> trivial
  · intro hempty
    have hlen : ¬ (0 < s.calibration_samples.length) := by simp [hempty]
    simp only [processCalibration, if_neg hnot, if_neg hlen]
    refine ⟨?_, ?_⟩ <;> trivial

/-- Concrete calibration state that has been collecting for longer than the
countdown with two buffered samples. -/
def calibReady : CalibState :=
  { calibrated := false
    calibration_samples := [(1, 2, 3), (3, 4, 5)]
    calibration_yaw_offset := 0
    calibration_pitch_offset := 0
    calibration_roll_offset := 0
    calibration_countdown := 3
    calibration_start_time := 0 }

/-- Witness for C6: at time 5 (elapsed 5 ≥ countdown 3) with samples
`[(1,2,3),(3,4,5)]`, calibration completes with the per-axis means
`(2,3,4)`; with an empty buffer it stays uncalibrated and returns `false`. -/
theorem processCalibration_completion_witness :
    (processCalibration calibReady 0 0 0 5).2 = true ∧
      (processCalibration calibReady 0 0 0 5).1.calibration_yaw_offset = 2 ∧
      (processCalibration calibReady 0 0 0 5).1.calibration_pitch_offset = 3 ∧
      (processCalibration calibReady 0 0 0 5).1.calibration_roll_offset = 4 ∧
      (processCalibration (startCalibration calibReady 0) 0 0 0 5).2 = false := by
  have h1 := processCalibration_completion calibReady 0 0 0 5 (by norm_num [calibReady])
  have h2 := processCalibration_completion (startCalibration calibReady 0) 0 0 0 5
    (by norm_num [startCalibration, calibReady])
  have hne : calibReady.calibration_samples ≠ [] := by simp [calibReady]
  have he : (startCalibration calibReady 0).calibration_samples = [] := rfl
  obtain ⟨hret, _, hy, hp, hr⟩ := h1.1 hne
  refine ⟨hret, ?_, ?_, ?_, (h2.2 he).1⟩
  · rw [hy]; norm_num [calibReady]
  · rw [hp]; norm_num [calibReady]
  · rw [hr]; norm_num [calibReady]

/-- Exponential-moving-average step for the screen attention ratio, from
`process_eye_metrics`:
`ratio = ratio * (1 - alpha) + in_bounds * alpha` with `alpha = 0.05` and
`in_bounds` a Python boolean contributing 0 or 1. -/
def emaStep (ratio : ℚ) (in_bounds : Bool) : ℚ :=
  ratio * (1 - 0.05) + (if in_bounds then 1 else 0) * 0.05

/-- Screen attention ratio after a frame sequence, starting from the
initial value `0.0` set in `__init__`. -/
def screenAttentionRun (frames : List Bool) : ℚ :=
  frames.foldl emaStep 0

theorem emaStep_mem_Icc (r : ℚ) (b : Bool) (h0 : 0 ≤ r) (h1 : r ≤ 1) :
    0 ≤ emaStep r b ∧ emaStep r b ≤ 1 := by
  unfold emaStep
  cases b <;> simp <;> constructor <;> nlinarith

theorem screenAttention_foldl_mem_Icc (frames : List Bool) (r : ℚ)
    (h0 : 0 ≤ r) (h1 : r ≤ 1) :
    0 ≤ frames.foldl emaStep r ∧ frames.foldl emaStep r ≤ 1 := by
  induction frames generalizing r with
  | nil => exact ⟨h0, h1⟩
  | cons b l ih =>
      have h := emaStep_mem_Icc r b h0 h1
      exact ih (emaStep r b) h.1 h.2

/-- C7: for every finite frame sequence of any length, the exponentially
smoothed `screen_attention_ratio` — starting from 0 and updated each frame as
`ratio * (1 - 0.05) + in_bounds * 0.05` with `in_bounds ∈ {0,1}` — never
leaves `[0, 1]`. -/
theorem screenAttentionRatio_mem_Icc (frames : List Bool) :
    0 ≤ screenAttentionRun frames ∧ screenAttentionRun frames ≤ 1 :=
  screenAttention_foldl_mem_Icc frames 0 le_rfl (by norm_num)

/-- Yaw deadzone threshold, `self.yaw_threshold = 10.0` degrees. -/
def yawThreshold : ℚ := 10

/-- Pitch deadzone threshold, `self.pitch_threshold = 10.0` degrees. -/
def pitchThreshold : ℚ := 10

/-- Size of the attention sliding window, `deque(maxlen=30)`. -/
def attentionWindow : ℕ := 30

/-- Fraction of attentive frames required, `self.attention_threshold = 0.7`. -/
def attentionThreshold : ℚ := 0.7

/-- Head-direction and screen-attention state of `FacialMonitoringAgent`
(the fields `update_head_direction` reads and writes). -/
structure DirState where
  head_yaw : ℚ
  head_pitch : ℚ
  current_direction : String
  head_movement_count : ℕ
  micro_movement_count : ℕ
  looking_at_monitor : Bool
  gaze_shift_count : ℕ
  screen_attention_history : List Bool
  prev_head_yaw : ℚ
  prev_head_pitch : ℚ
  prev_head_direction : String
  prev_looking_at_monitor : Bool
deriving DecidableEq, Repr

/-- Initial direction state from `__init__`: pose zero, direction CENTER,
`looking_at_monitor = True`, empty attention history. -/
def dirInit : DirState :=
  { head_yaw := 0
    head_pitch := 0
    current_direction := "CENTER"
    head_movement_count := 0
    micro_movement_count := 0
    looking_at_monitor := true
    gaze_shift_count := 0
    screen_attention_history := []
    prev_head_yaw := 0
    prev_head_pitch := 0
    prev_head_direction := "CENTER"
    prev_looking_at_monitor := true }

/-- Model of `deque(maxlen=30).append`: push the new raw flag, evicting from
the left when the window exceeds 30 entries. -/
def pushWindow (h : List Bool) (b : Bool) : List Bool :=
  let h2 := h ++ [b]
  if attentionWindow < h2.length then h2.drop (h2.length - attentionWindow) else h2

/-- Fraction of true raw flags in the window,
`sum(self.screen_attention_history) / len(self.screen_attention_history)`. -/
def attentionRatio (h : List Bool) : ℚ :=
  ((h.count true : ℕ) : ℚ) / (h.length : ℚ)

/-- Raw per-frame looking-at-monitor flag,
`abs(head_yaw) <= yaw_threshold and abs(head_pitch) <= pitch_threshold`. -/
def rawLooking (yaw pitch : ℚ) : Bool :=
  decide (|yaw| ≤ yawThreshold ∧ |pitch| ≤ pitchThreshold)

/-- Direction classification of `update_head_direction`: pitch beyond the
threshold yields UP/DOWN, then yaw beyond the threshold overrides with
LEFT/RIGHT, otherwise CENTER. -/
def classifyDirection (yaw pitch : ℚ) : String :=
  let d1 := if pitch < -pitchThreshold then "UP"
    else if pitch > pitchThreshold then "DOWN" else "CENTER"
  if yaw < -yawThreshold then "LEFT"
  else if yaw > yawThreshold then "RIGHT" else d1

/-- Model of `FacialMonitoringAgent.update_head_direction`: classifies the
direction, counts movement events, pushes the raw looking flag into the
30-frame window and recomputes the hysteretic `looking_at_monitor` from the
window's attention ratio. -/
def updateHeadDirection (s : DirState) : DirState :=
  let new_direction := classifyDirection s.head_yaw s.head_pitch
  let hmc := if new_direction ≠ s.current_direction then s.head_movement_count + 1
    else s.head_movement_count
  let yaw_diff := |s.head_yaw - s.prev_head_yaw|
  let pitch_diff := |s.head_pitch - s.prev_head_pitch|
  let mmc := if (1 < yaw_diff ∧ yaw_diff < yawThreshold) ∨
      (1 < pitch_diff ∧ pitch_diff < pitchThreshold) then s.micro_movement_count + 1
    else s.micro_movement_count
  let raw := rawLooking s.head_yaw s.head_pitch
  let gsc := if raw ≠ s.looking_at_monitor then s.gaze_shift_count + 1
    else s.gaze_shift_count
  let hist := pushWindow s.screen_attention_history raw
  let looking := if 0 < hist.length then decide (attentionThreshold ≤ attentionRatio hist)
    else s.looking_at_monitor
  { head_yaw := s.head_yaw
    head_pitch := s.head_pitch
    current_direction := new_direction
    head_movement_count := hmc
    micro_movement_count := mmc
    looking_at_monitor := looking
    gaze_shift_count := gsc
    screen_attention_history := hist
    prev_head_yaw := s.head_yaw
    prev_head_pitch := s.head_pitch
    prev_head_direction := new_direction
    prev_looking_at_monitor := looking }

/-- One frame of the driver loop of `process_frame`: install the frame's
filtered pose into the state, then run `update_head_direction`. -/
def stepDirection (s : DirState) (pose : ℚ × ℚ) : DirState :=
  updateHeadDirection { s with head_yaw := pose.1, head_pitch := pose.2 }

/-- States reached after each frame of a pose sequence (first element is the
initial state). -/
def dirStates (s : DirState) (poses : List (ℚ × ℚ)) : List DirState :=
  poses.scanl stepDirection s

theorem pushWindow_length_pos (h : List Bool) (b : Bool) :
    0 < (pushWindow h b).length := by
  simp only [pushWindow]
  split_ifs with hlt
  · rw [List.length_drop]
    simp only [attentionWindow, List.length_append, List.length_singleton] at hlt ⊢
    omega
  · simp

theorem updateHeadDirection_window (s : DirState) :
    (updateHeadDirection s).screen_attention_history =
      pushWindow s.screen_attention_history (rawLooking s.head_yaw s.head_pitch) := rfl

theorem lookingAtMonitor_iff_ratio (s : DirState) :
    (updateHeadDirection s).looking_at_monitor = true ↔
      attentionThreshold ≤
        attentionRatio ((updateHeadDirection s).screen_attention_history) := by
  have hlen := pushWindow_length_pos s.screen_attention_history
    (rawLooking s.head_yaw s.head_pitch)
  simp only [updateHeadDirection]
  rw [if_pos hlen]
  exact decide_eq_true_iff

theorem looking_false_of_count (t : DirState)
    (h : 10 * ((pushWindow t.screen_attention_history
        (rawLooking t.head_yaw t.head_pitch)).count true) <
      7 * (pushWindow t.screen_attention_history
        (rawLooking t.head_yaw t.head_pitch)).length) :
    (updateHeadDirection t).looking_at_monitor = false := by
  have hlen := pushWindow_length_pos t.screen_attention_history
    (rawLooking t.head_yaw t.head_pitch)
  have hratio : attentionRatio (pushWindow t.screen_attention_history
      (rawLooking t.head_yaw t.head_pitch)) < attentionThreshold := by
    unfold attentionRatio attentionThreshold
    rw [div_lt_iff₀ (by exact_mod_cast hlen)]
    have h2 : ((10 * (pushWindow t.screen_attention_history
        (rawLooking t.head_yaw t.head_pitch)).count true : ℕ) : ℚ) <
        ((7 * (pushWindow t.screen_attention_history
          (rawLooking t.head_yaw t.head_pitch)).length : ℕ) : ℚ) := by exact_mod_cast h
    push_cast at h2
    linarith
  simp only [updateHeadDirection]
  rw [if_pos hlen]
  exact decide_eq_false (not_le.mpr hratio)

theorem mem_of_mem_tail {α : Type} {x : α} {l : List α} (h : x ∈ l.tail) : x ∈ l := by
  cases l with
  | nil => simp at h
  | cons a l => exact List.mem_cons_of_mem a h

theorem scanl_self_mem {α β : Type} (f : β → α → β) (b : β) (l : List α) :
    b ∈ List.scanl f b l := by
  cases l with
  | nil => simp [List.scanl]
  | cons a l => simp [List.scanl_cons, List.singleton_append]

theorem dirStates_all_false (poses : List (ℚ × ℚ)) :
    ∀ s : DirState, s.looking_at_monitor = false →
      (∀ w ∈ (List.scanl pushWindow s.screen_attention_history
          (poses.map (fun p => rawLooking p.1 p.2))).tail,
        10 * w.count true < 7 * w.length) →
      ∀ st ∈ dirStates s poses, st.looking_at_monitor = false := by
  induction poses with
  | nil =>
      intro s hs _ st hst
      simp only [dirStates, List.scanl_nil, List.mem_singleton] at hst
      subst hst
      exact hs
  | cons p ps ih =>
      intro s hs hw st hst
      simp only [dirStates, List.scanl_cons, List.singleton_append, List.mem_cons] at hst
      have hw1 : 10 * ((pushWindow s.screen_attention_history
            (rawLooking p.1 p.2)).count true) <
          7 * (pushWindow s.screen_attention_history (rawLooking p.1 p.2)).length := by
        apply hw
        simp only [List.map_cons, List.scanl_cons, List.singleton_append, List.tail_cons]
        exact scanl_self_mem _ _ _
      have hstep : (stepDirection s p).looking_at_monitor = false :=
        looking_false_of_count { s with head_yaw := p.1, head_pitch := p.2 } hw1
      rcases hst with rfl | hst
      · exact hs
      · refine ih (stepDirection s p) hstep ?_ st hst
        intro w hwmem
        apply hw
        simp only [List.map_cons, List.scanl_cons, List.singleton_append, List.tail_cons]
        exact mem_of_mem_tail hwmem

theorem dirStates_tail_false (poses : List (ℚ × ℚ)) (s : DirState)
    (hw : ∀ w ∈ (List.scanl pushWindow s.screen_attention_history
        (poses.map (fun p => rawLooking p.1 p.2))).tail,
      10 * w.count true < 7 * w.length) :
    ∀ st ∈ (dirStates s poses).tail, st.looking_at_monitor = false := by
  cases poses with
  | nil =>
      intro st hst
      simp [dirStates, List.scanl_nil] at hst
  | cons p ps =>
      intro st hst
      simp only [dirStates, List.scanl_cons, List.singleton_append, List.tail_cons] at hst
      have hw1 : 10 * ((pushWindow s.screen_attention_history
            (rawLooking p.1 p.2)).count true) <
          7 * (pushWindow s.screen_attention_history (rawLooking p.1 p.2)).length := by
        apply hw
        simp only [List.map_cons, List.scanl_cons, List.singleton_append, List.tail_cons]
        exact scanl_self_mem _ _ _
      have hstep : (stepDirection s p).looking_at_monitor = false :=
        looking_false_of_count { s with head_yaw := p.1, head_pitch := p.2 } hw1
      refine dirStates_all_false ps (stepDirection s p) hstep ?_ st hst
      intro w hwmem
      apply hw
      simp only [List.map_cons, List.scanl_cons, List.singleton_append, List.tail_cons]
      exact mem_of_mem_tail hwmem

/-- Pose fed to frame `i` of the C5 scenario: every fourth frame looks at
the monitor (yaw 0), the other three look far right (yaw 50), so the raw
flag repeats false/false/false/true. -/
def scenarioPose (i : ℕ) : ℚ × ℚ := if i % 4 = 3 then (0, 0) else (50, 0)

/-- The 40 scenario frames. -/
def scenarioPoses : List (ℚ × ℚ) := (List.range 40).map scenarioPose

/-- The raw flag sequence of the scenario, false/false/false/true repeating. -/
def scenarioFlags : List Bool := (List.range 40).map (fun i => decide (i % 4 = 3))

theorem rawLooking_scenarioPose (i : ℕ) :
    rawLooking (scenarioPose i).1 (scenarioPose i).2 = decide (i % 4 = 3) := by
  by_cases h : i % 4 = 3 <;>
    simp [scenarioPose, h, rawLooking, yawThreshold, pitchThreshold] <;> norm_num

theorem scenarioPoses_flags :
    scenarioPoses.map (fun p => rawLooking p.1 p.2) = scenarioFlags := by
  simp only [scenarioPoses, scenarioFlags, List.map_map]
  apply List.map_congr_left
  intro i _
  exact rawLooking_scenarioPose i

/-- C5: after each frame's `update_head_direction`, the hysteretic
`looking_at_monitor` output is true if and only if the fraction of true raw
flags in the 30-frame sliding window meets or exceeds the attention
threshold 0.7; and in the 40-frame scenario whose raw flag repeats
false/false/false/true (25 percent true), the hysteretic output is false
after every frame. -/
theorem lookingAtMonitor_hysteresis :
    (∀ s : DirState, ((updateHeadDirection s).looking_at_monitor = true ↔
      attentionThreshold ≤
        attentionRatio ((updateHeadDirection s).screen_attention_history))) ∧
    (∀ st ∈ (dirStates dirInit scenarioPoses).tail, st.looking_at_monitor = false) := by
  refine ⟨lookingAtMonitor_iff_ratio, ?_⟩
  apply dirStates_tail_false
  rw [scenarioPoses_flags]
  have hall : ((List.scanl pushWindow dirInit.screen_attention_history scenarioFlags).tail).all
      (fun w => decide (10 * w.count true < 7 * w.length)) = true := by decide
  intro w hw
  exact of_decide_eq_true (List.all_eq_true.mp hall w hw)

/-- One recorded fixation, as appended to `gaze_tracking["fixation_history"]`. -/
structure Fixation where
  point : Option (ℚ × ℚ)
  duration : ℚ
  time : ℚ
deriving DecidableEq, Repr

/-- Gaze-tracking state of `FacialMonitoringAgent` (the `gaze_tracking`
dictionary).  `prev_x`/`prev_y` are `Option` because the dictionary keys
`prev_x`/`prev_y` are absent until the first frame stores them
(`dict.get` with the current gaze as default). -/
structure GazeState where
  current_x : ℚ
  current_y : ℚ
  fixation_point : Option (ℚ × ℚ)
  fixation_start_time : ℚ
  fixation_duration : ℚ
  fixation_count : ℕ
  total_fixation_time : ℚ
  avg_fixation_time : ℚ
  saccade_count : ℕ
  saccade_times : List ℚ
  fixation_history : List Fixation
  screen_attention_ratio : ℚ
  last_known_in_bounds : Bool
  prev_x : Option ℚ
  prev_y : Option ℚ
  prev_time : ℚ
deriving DecidableEq, Repr

/-- Movement threshold for fixation detection, `fixation_threshold = 0.05`. -/
def fixationThreshold : ℚ := 0.05

/-- Movement threshold for saccade detection, `saccade_threshold = 0.1`. -/
def saccadeThreshold : ℚ := 0.1

/-- Initial `gaze_tracking` dictionary from `__init__`. -/
def gazeInit : GazeState :=
  { current_x := 0
    current_y := 0
    fixation_point := none
    fixation_start_time := 0
    fixation_duration := 0
    fixation_count := 0
    total_fixation_time := 0
    avg_fixation_time := 0
    saccade_count := 0
    saccade_times := []
    fixation_history := []
    screen_attention_ratio := 0
    last_known_in_bounds := true
    prev_x := none
    prev_y := none
    prev_time := 0 }

/-- Normalized gaze movement distance,
`math.sqrt((gaze_x - prev_gaze_x)**2 + (gaze_y - prev_gaze_y)**2)` where the
previous point defaults to the current one on the first frame. -/
def gazeDistance (s : GazeState) (gx gy : ℚ) : ℚ :=
  ratSqrt ((gx - s.prev_x.getD gx) ^ 2 + (gy - s.prev_y.getD gy) ^ 2)

/-- Model of the fixation/saccade and screen-attention part of
`FacialMonitoringAgent.process_eye_metrics` (lines after the combined gaze
point `(gaze_x, gaze_y)` has been computed from the iris geometry).
`is_blinking` is the blink detector's current flag, `head_center` states
whether `self.current_direction == "CENTER"`, `t` is `time.time()`. -/
def stepGaze (s : GazeState) (gx gy : ℚ) (is_blinking : Bool)
    (head_center : Bool) (t : ℚ) : GazeState :=
  let s0 := { s with current_x := gx, current_y := gy }
  let gaze_distance := gazeDistance s gx gy
  let s1 :=
    if gaze_distance < fixationThreshold ∨ is_blinking = true then
      match s0.fixation_point with
      | none =>
          if is_blinking then s0
          else { s0 with fixation_point := some (gx, gy), fixation_start_time := t }
      | some _ => { s0 with fixation_duration := t - s0.fixation_start_time }
    else
      let s2 :=
        if s0.fixation_duration > 0.1 then
          let cnt := s0.fixation_count + 1
          let total := s0.total_fixation_time + s0.fixation_duration
          let hist := s0.fixation_history ++
            [{ point := s0.fixation_point
               duration := s0.fixation_duration
               time := s0.fixation_start_time : Fixation }]
          let s2a := { s0 with fixation_count := cnt
                               total_fixation_time := total
                               fixation_history := hist }
          if 0 < cnt then { s2a with avg_fixation_time := total / (cnt : ℚ) } else s2a
        else s0
      let s3 :=
        if gaze_distance > saccadeThreshold then
          { s2 with saccade_count := s2.saccade_count + 1
                    saccade_times := s2.saccade_times ++ [t] }
        else s2
      { s3 with fixation_point := none, fixation_duration := 0 }
  let in_bounds0 : Bool := decide (|gx| ≤ 1 ∧ |gy| ≤ 1)
  let in_bounds1 : Bool :=
    if head_center then in_bounds0 || decide (|gx| ≤ 1.2 ∧ |gy| ≤ 1.2) else in_bounds0
  let in_bounds : Bool :=
    if is_blinking && s.last_known_in_bounds then true else in_bounds1
  { s1 with last_known_in_bounds := in_bounds
            screen_attention_ratio := emaStep s1.screen_attention_ratio in_bounds
            prev_x := some gx
            prev_y := some gy
            prev_time := t }

/-- Folding `process_eye_metrics` gaze steps over a frame sequence; each
input is `((gaze_x, gaze_y), is_blinking, head_center, time)`. -/
def runGaze (s : GazeState) (inputs : List ((ℚ × ℚ) × Bool × Bool × ℚ)) : GazeState :=
  inputs.foldl (fun st i => stepGaze st i.1.1 i.1.2 i.2.1 i.2.2.1 i.2.2.2) s

theorem stepGaze_no_record (s : GazeState) (gx gy : ℚ) (blink center : Bool) (t : ℚ)
    (h : ¬ ((0.1 : ℚ) < s.fixation_duration)) :
    (stepGaze s gx gy blink center t).fixation_count = s.fixation_count ∧
      (stepGaze s gx gy blink center t).fixation_history = s.fixation_history ∧
      (stepGaze s gx gy blink center t).total_fixation_time = s.total_fixation_time ∧
      (stepGaze s gx gy blink center t).avg_fixation_time = s.avg_fixation_time := by
  rcases hfp : s.fixation_point with _ | pt <;>
    simp only [stepGaze, hfp] <;> split_ifs <;> simp_all

theorem stepGaze_record_needs_duration (s : GazeState) (gx gy : ℚ)
    (blink center : Bool) (t : ℚ)
    (h : (stepGaze s gx gy blink center t).fixation_count ≠ s.fixation_count ∨
      (stepGaze s gx gy blink center t).fixation_history ≠ s.fixation_history) :
    (1 : ℚ) / 10 ≤ s.fixation_duration := by
  by_contra hlt
  push_neg at hlt
  have := stepGaze_no_record s gx gy blink center t (by intro hc; norm_num at hc ⊢; linarith)
  rcases h with h | h
  · exact h this.1
  · exact h this.2.1

theorem stepGaze_reset (s : GazeState) (gx gy : ℚ) (center : Bool) (t : ℚ)
    (h1 : ¬ (gazeDistance s gx gy < fixationThreshold)) :
    (stepGaze s gx gy false center t).fixation_point = none ∧
      (stepGaze s gx gy false center t).fixation_duration = 0 := by
  have hcond : ¬ (gazeDistance s gx gy < fixationThreshold ∨ (false : Bool) = true) := by
    simp [h1]
  rcases hfp : s.fixation_point with _ | pt <;>
    simp only [stepGaze, hfp, if_neg hcond] <;> exact ⟨trivial, trivial⟩

/-- C8: `process_eye_metrics` records a fixation (incrementing
`fixation_count`, accumulating total/average fixation time, appending to
`fixation_history`) only when the just-ended fixation's accumulated duration
is at least 100 ms; when sub-threshold gaze (or blinking) is interrupted
before 100 ms have elapsed, nothing is recorded and the fixation state is
reset (`fixation_point = None`, `fixation_duration = 0`). -/
theorem fixation_recording_threshold (s : GazeState) (gx gy : ℚ)
    (blink center : Bool) (t : ℚ) :
    ((stepGaze s gx gy blink center t).fixation_count ≠ s.fixation_count ∨
        (stepGaze s gx gy blink center t).fixation_history ≠ s.fixation_history →
      (1 : ℚ) / 10 ≤ s.fixation_duration) ∧
    (fixationThreshold ≤ gazeDistance s gx gy → blink = false →
        s.fixation_duration < 1 / 10 →
      (stepGaze s gx gy blink center t).fixation_count = s.fixation_count ∧
      (stepGaze s gx gy blink center t).fixation_history = s.fixation_history ∧
      (stepGaze s gx gy blink center t).total_fixation_time = s.total_fixation_time ∧
      (stepGaze s gx gy blink center t).avg_fixation_time = s.avg_fixation_time ∧
      (stepGaze s gx gy blink center t).fixation_point = none ∧
      (stepGaze s gx gy blink center t).fixation_duration = 0) := by
  constructor
  · exact stepGaze_record_needs_duration s gx gy blink center t
  · intro hd hb hdur
    subst hb
    have hno := stepGaze_no_record s gx gy false center t (by norm_num; linarith)
    have hr := stepGaze_reset s gx gy center t (not_lt_of_le hd)
    exact ⟨hno.1, hno.2.1, hno.2.2.1, hno.2.2.2, hr.1, hr.2⟩

/-- Gaze state in the middle of a short (50 ms) fixation, used to witness
C8 at a concrete input. -/
def fixWitState : GazeState :=
  { gazeInit with fixation_duration := 1 / 20
                  fixation_point := some (0, 0)
                  fixation_start_time := 1
                  prev_x := some 0
                  prev_y := some 0 }

theorem ratSqrt_one : ratSqrt 1 = 1 := by
  unfold ratSqrt
  rw [if_neg (by norm_num)]
  norm_num

/-- Witness for C8: a gaze jump of distance 1 interrupting a 50 ms fixation
records nothing and resets the fixation state. -/
theorem fixation_recording_threshold_witness :
    (stepGaze fixWitState 1 0 false false 5).fixation_count = fixWitState.fixation_count ∧
      (stepGaze fixWitState 1 0 false false 5).fixation_history =
        fixWitState.fixation_history ∧
      (stepGaze fixWitState 1 0 false false 5).fixation_point = none := by
  have hdist : gazeDistance fixWitState 1 0 = 1 := by
    rw [show gazeDistance fixWitState 1 0 = ratSqrt 1 by norm_num [gazeDistance, fixWitState, gazeInit]]
    exact ratSqrt_one
  have h := fixation_recording_threshold fixWitState 1 0 false false 5
  have hd : fixationThreshold ≤ gazeDistance fixWitState 1 0 := by
    rw [hdist]; norm_num [fixationThreshold]
  have hdur : fixWitState.fixation_duration < 1 / 10 := by
    norm_num [fixWitState]
  obtain ⟨hc, hh, _, _, hp, _⟩ := h.2 hd rfl hdur
  exact ⟨hc, hh, hp⟩

/-- Formalization of C9 as stated: the fixation history and the saccade
timestamp list stay below some fixed size bound over every frame sequence of
a session. -/
def gazeHistoriesBounded : Prop :=
  ∃ N : ℕ, ∀ inputs : List ((ℚ × ℚ) × Bool × Bool × ℚ),
    (runGaze gazeInit inputs).saccade_times.length ≤ N ∧
    (runGaze gazeInit inputs).fixation_history.length ≤ N

/-- Frame `i` of the unboundedness run: gaze alternates between x = 0 and
x = 10, so every frame after the first is a saccade. -/
def jumpInput (i : ℕ) : (ℚ × ℚ) × Bool × Bool × ℚ :=
  ((if i % 2 = 0 then 0 else 10, 0), false, false, (i : ℚ))

/-- First `n` frames of the unboundedness run. -/
def jumpInputs (n : ℕ) : List ((ℚ × ℚ) × Bool × Bool × ℚ) :=
  (List.range n).map jumpInput

theorem stepGaze_prev (s : GazeState) (gx gy : ℚ) (blink center : Bool) (t : ℚ) :
    (stepGaze s gx gy blink center t).prev_x = some gx ∧
      (stepGaze s gx gy blink center t).prev_y = some gy := by
  rcases hfp : s.fixation_point with _ | pt <;>
    simp only [stepGaze, hfp] <;> exact ⟨trivial, trivial⟩

theorem stepGaze_saccade_append (s : GazeState) (gx gy : ℚ) (center : Bool) (t : ℚ)
    (h : saccadeThreshold < gazeDistance s gx gy) :
    (stepGaze s gx gy false center t).saccade_times = s.saccade_times ++ [t] := by
  have h1 : ¬ (gazeDistance s gx gy < fixationThreshold) := by
    unfold fixationThreshold
    unfold saccadeThreshold at h
    intro hc
    linarith
  have hcond : ¬ (gazeDistance s gx gy < fixationThreshold ∨ (false : Bool) = true) := by
    simp [h1]
  rcases hfp : s.fixation_point with _ | pt <;>
    simp only [stepGaze, hfp, if_neg hcond, if_pos h] <;> split_ifs <;> simp

theorem stepGaze_saccade_keep (s : GazeState) (gx gy : ℚ) (blink center : Bool) (t : ℚ)
    (h : gazeDistance s gx gy < fixationThreshold) :
    (stepGaze s gx gy blink center t).saccade_times = s.saccade_times := by
  have hcond : gazeDistance s gx gy < fixationThreshold ∨ blink = true := Or.inl h
  rcases hfp : s.fixation_point with _ | pt <;>
    simp only [stepGaze, hfp, if_pos hcond] <;> split_ifs <;> simp

theorem ratSqrt_hundred_gt : saccadeThreshold < ratSqrt 100 := by
  have h1 : 1 ≤ Nat.sqrt 100 := Nat.le_sqrt.mpr (by norm_num)
  unfold ratSqrt saccadeThreshold
  rw [if_neg (by norm_num)]
  have h2 : (100 : ℚ).num.toNat * (100 : ℚ).den = 100 := by
    norm_num
    rfl
  rw [h2]
  have h3 : ((100 : ℚ).den : ℚ) = 1 := by norm_num
  rw [h3, div_one]
  have h4 : (1 : ℚ) ≤ (Nat.sqrt 100 : ℚ) := by exact_mod_cast h1
  linarith

theorem jumpRun_saccades (n : ℕ) :
    (runGaze gazeInit (jumpInputs (n + 1))).saccade_times.length = n ∧
      (runGaze gazeInit (jumpInputs (n + 1))).prev_x =
        some (if n % 2 = 0 then 0 else 10) ∧
      (runGaze gazeInit (jumpInputs (n + 1))).prev_y = some 0 := by
  induction n with
  | zero =>
      have hdist : gazeDistance gazeInit 0 0 = 0 := by
        norm_num [gazeDistance, gazeInit, ratSqrt]
      have hkeep := stepGaze_saccade_keep gazeInit 0 0 false false 0
        (by rw [hdist]; norm_num [fixationThreshold])
      have hprev := stepGaze_prev gazeInit 0 0 false false 0
      have hrun : runGaze gazeInit (jumpInputs 1) = stepGaze gazeInit 0 0 false false 0 := by
        norm_num [runGaze, jumpInputs, List.range_succ, jumpInput]
      rw [hrun, hkeep]
      exact ⟨rfl, by rw [hprev.1]; norm_num, hprev.2⟩
  | succ m ih =>
      have hsplit : jumpInputs (m + 2) = jumpInputs (m + 1) ++ [jumpInput (m + 1)] := by
        simp [jumpInputs, List.range_succ]
      have hrun : runGaze gazeInit (jumpInputs (m + 2)) =
          stepGaze (runGaze gazeInit (jumpInputs (m + 1)))
            (if (m + 1) % 2 = 0 then 0 else 10) 0 false false ((m + 1 : ℕ) : ℚ) := by
        rw [hsplit]
        simp [runGaze, List.foldl_append, jumpInput]
      set sm := runGaze gazeInit (jumpInputs (m + 1)) with hsm
      have hdist : gazeDistance sm (if (m + 1) % 2 = 0 then 0 else 10) 0 = ratSqrt 100 := by
        unfold gazeDistance
        rw [ih.2.1, ih.2.2]
        rcases Nat.even_or_odd m with he | ho
        · have hm : m % 2 = 0 := Nat.even_iff.mp he
          have hm1 : (m + 1) % 2 = 1 := by omega
          rw [hm, hm1]
          norm_num
        · have hm : m % 2 = 1 := Nat.odd_iff.mp ho
          have hm1 : (m + 1) % 2 = 0 := by omega
          rw [hm, hm1]
          norm_num
      have happ := stepGaze_saccade_append sm (if (m + 1) % 2 = 0 then 0 else 10) 0 false
        ((m + 1 : ℕ) : ℚ) (by rw [hdist]; exact ratSqrt_hundred_gt)
      have hprev := stepGaze_prev sm (if (m + 1) % 2 = 0 then 0 else 10) 0 false false
        ((m + 1 : ℕ) : ℚ)
      refine ⟨?_, ?_, ?_⟩
      · rw [hrun, happ]
        simp [ih.1]
      · rw [hrun, hprev.1]
      · rw [hrun, hprev.2]

/-- C9 counterexample: the formalized boundedness claim is false — on the
alternating-gaze run, `saccade_times` grows past every fixed limit, because
`process_eye_metrics` only ever appends to it and never evicts. -/
theorem gazeHistoriesBounded_false : gazeHistoriesBounded ↔ False := by
  constructor
  · rintro ⟨N, hN⟩
    have hlen := (jumpRun_saccades (N + 1)).1
    have hle := (hN (jumpInputs (N + 2))).1
    rw [hlen] at hle
    omega
  · intro h
    exact h.elim

/-- C9 amended: the gaze tracker's `fixation_history` and `saccade_times`
are append-only — no frame ever shrinks them — and over suitable frame
sequences the saccade-timestamp list exceeds every fixed bound, so these two
collections are not bounded (only the blink-duration window, the 60-second
blink-timestamp window and the 30-frame attention window are). -/
theorem gaze_histories_append_only_unbounded :
    (∀ (s : GazeState) (gx gy : ℚ) (blink center : Bool) (t : ℚ),
      s.saccade_times.length ≤ (stepGaze s gx gy blink center t).saccade_times.length ∧
      s.fixation_history.length ≤
        (stepGaze s gx gy blink center t).fixation_history.length) ∧
    (∀ N : ℕ, ∃ inputs : List ((ℚ × ℚ) × Bool × Bool × ℚ),
      N < (runGaze gazeInit inputs).saccade_times.length) := by
  constructor
  · intro s gx gy blink center t
    rcases hfp : s.fixation_point with _ | pt <;>
      simp only [stepGaze, hfp] <;> split_ifs <;> simp
  · intro N
    refine ⟨jumpInputs (N + 2), ?_⟩
    rw [(jumpRun_saccades (N + 1)).1]
    omega

/-- Session state of `FacialMonitoringAgent` as far as the per-frame metric
pipeline is concerned: the blink detector, the published blink dictionary,
the gaze tracker, the head-direction/attention state, the calibration state,
the raw and filtered pose and the detection flag (UI drawing, CSV logging
and camera plumbing are external concerns outside the core). -/
structure AgentState where
  blink : BlinkState
  current_blink : BlinkResult
  gaze : GazeState
  dir : DirState
  calib : CalibState
  raw_yaw : ℚ
  raw_pitch : ℚ
  raw_roll : ℚ
  face_detected : Bool
  frame_count : ℕ

/-- Model of `FacialMonitoringAgent.process_frame` on a frame in which the
face-mesh detector returns no face (`results.multi_face_landmarks` empty):
the frame counter advances and the `else` branch sets
`self.face_detected = False`; no other state is touched.  The function is
total, reflecting that this path cannot raise. -/
def processFrameNoFace (s : AgentState) : AgentState :=
  { s with frame_count := s.frame_count + 1
           face_detected := false }

/-- C3: a no-detection frame never raises (the embedding is a total
function), sets the snapshot's `face_detected` flag to false, and leaves all
other metric state — blink counts, gaze tracking, head pose, direction and
the attention history — unchanged at its previous held-over values. -/
theorem processFrameNoFace_neutral (s : AgentState) :
    (processFrameNoFace s).face_detected = false ∧
      (processFrameNoFace s).blink = s.blink ∧
      (processFrameNoFace s).current_blink = s.current_blink ∧
      (processFrameNoFace s).gaze = s.gaze ∧
      (processFrameNoFace s).dir = s.dir ∧
      (processFrameNoFace s).calib = s.calib ∧
      (processFrameNoFace s).raw_yaw = s.raw_yaw ∧
      (processFrameNoFace s).raw_pitch = s.raw_pitch ∧
      (processFrameNoFace s).raw_roll = s.raw_roll := by
  exact ⟨rfl, rfl, rfl, rfl, rfl, rfl, rfl, rfl, rfl⟩

end MindMirror
